import Mathlib

/-!
Shallow embedding of the provider-abstraction layer in `dev/infra.py`:
resource descriptors (`Server`, network configuration), the provider base
class behaviour (`server_object_is_valid`, the stub network/subnet
provisioners), the two concrete providers (`HCloudProvider`,
`ScalewayProvider`) and the `Infra` orchestrator.  Python's mutable provider
objects become explicit state records; methods that mutate `self` become
state-passing functions returning `Except PyError`; calls into the vendor
SDK (`pulumi_hcloud`, `pulumiverse_scaleway`) are recorded both as the handle
records they return and in an explicit trace of SDK constructor invocations.
-/

/-- Python errors that the embedded code can raise.  `Exception` is the
generic `raise Exception(msg)`; `KeyError` is a failed dictionary lookup.
The remaining constructors come from the specification's error taxonomy and
are never produced by the source code; they exist so that claims phrased in
terms of them are statable. -/
inductive PyError where
  | Exception (msg : String)
  | KeyError (key : String)
  | InvalidResourceError (msg : String)
  | ConfigurationError (msg : String)
  | UnknownProviderError (name : String)
deriving DecidableEq, Repr

/-- `Server` descriptor (class `Server` in `dev/infra.py`). -/
structure Server where
  name : String
  size : String
  image : String
  ip_address : Option String := none
deriving DecidableEq, Repr

/-- One entry of the `subnets` list inside `network_config`. -/
structure SubnetConfig where
  subnet_ip_range : String
  name : String
deriving DecidableEq, Repr

/-- The `network_config` dictionary: `private_ip_range` and `subnets`. -/
structure NetworkConfig where
  private_ip_range : String
  subnets : List SubnetConfig := []
deriving DecidableEq, Repr

/-- The `provider_config` dictionary handed to `HCloudProvider`:
`network_config` plus a `location` string. -/
structure HCloudConfig where
  network_config : NetworkConfig
  location : String
deriving DecidableEq, Repr

/-- The `provider_config` dictionary handed to `ScalewayProvider`. -/
structure ScalewayConfig where
  network_config : NetworkConfig
deriving DecidableEq, Repr

/-- Handle returned by the vendor SDK call `hcloud.Network(name, ip_range=...)`. -/
structure HNetwork where
  resource_name : String
  ip_range : String
deriving DecidableEq, Repr

/-- The opaque `.id` of an `hcloud.Network` handle, modelled by its resource name. -/
def HNetwork.id (n : HNetwork) : String :=
  n.resource_name

/-- Handle returned by `hcloud.NetworkSubnet(name, network_id=..., ip_range=...,
network_zone=..., type=...)`. -/
structure HNetworkSubnet where
  resource_name : String
  network_id : String
  ip_range : String
  network_zone : String
  type : String
deriving DecidableEq, Repr

/-- The `hcloud.ServerNetworkArgs(network_id=..., ip=...)` record. -/
structure ServerNetworkArgs where
  network_id : String
  ip : Option String
deriving DecidableEq, Repr

/-- Handle returned by `hcloud.Server(name, server_type=..., image=...,
ssh_keys=..., networks=..., location=...)`. -/
structure HServer where
  resource_name : String
  server_type : String
  image : String
  ssh_keys : Option (List String)
  networks : List ServerNetworkArgs
  location : String
deriving DecidableEq, Repr

/-- Handle returned by `scaleway.InstanceIp(name)`. -/
structure InstanceIp where
  resource_name : String
deriving DecidableEq, Repr

/-- The opaque `.id` of a `scaleway.InstanceIp`, modelled by its resource name. -/
def InstanceIp.id (ip : InstanceIp) : String :=
  ip.resource_name

/-- Handle returned by `scaleway.InstanceServer(name, image=..., type=..., ip_id=...)`. -/
structure InstanceServer where
  resource_name : String
  image : String
  type : String
  ip_id : String
deriving DecidableEq, Repr

/-- An element of `ScalewayProvider`'s `self.servers` Python list.  The list is
dynamically typed, so an element can be the vendor handle (`server_instance`)
or the input `Server` descriptor; the source appends the latter. -/
inductive ScalewayServersItem where
  | handle (h : InstanceServer)
  | desc (s : Server)
deriving DecidableEq, Repr

/-- Whether a `ScalewayServersItem` is a vendor handle (a created
`scaleway.InstanceServer` resource) rather than the input descriptor. -/
def ScalewayServersItem.isHandle : ScalewayServersItem → Bool
  | .handle _ => true
  | .desc _ => false

/-- Vendor-SDK constructor invocations, traced so that "no SDK call happens"
is a statable property of an execution. -/
inductive SdkCall where
  | hcloudNetwork (name : String)
  | hcloudNetworkSubnet (name : String)
  | hcloudServer (name : String)
  | scalewayInstanceIp (name : String)
  | scalewayInstanceServer (name : String)
deriving DecidableEq, Repr

/-- The method invocations performed by `Provider.__init__`, traced so that
"this provider never receives a subnet-provisioning call" is statable. -/
inductive InitCall where
  | set_sizes
  | set_images
  | provision_private_network
  | provision_private_subnets
deriving DecidableEq, Repr

/-- Python dictionary indexing `d[k]`: the value when present, `KeyError`
otherwise.  Size/image tables are association lists with string keys. -/
def dictGet (d : List (String × String)) (k : String) : Except PyError String :=
  match d.lookup k with
  | some v => .ok v
  | none => .error (.KeyError k)

/-- `Provider.server_object_is_valid` (`dev/infra.py` lines 118-126): returns
`True` iff `server.image` is a key of `self.images` and `server.size` is a key
of `self.sizes`. -/
def Provider.server_object_is_valid (sizes images : List (String × String))
    (server : Server) : Bool :=
  if (images.map Prod.fst).contains server.image
      && (sizes.map Prod.fst).contains server.size then
    true
  else
    false

/-- Base-class `Provider.provision_private_network` (line 80-81): a `pass`
stub, returns Python `None`. -/
def Provider.provision_private_network : Option Unit :=
  none

/-- Base-class `Provider.provision_private_subnets` (line 83-84): a `pass`
stub, returns Python `None`. -/
def Provider.provision_private_subnets : Option Unit :=
  none

/-- `HCloudProvider.set_sizes`. -/
def HCloudProvider.set_sizes : List (String × String) :=
  [("small", "cx11"), ("medium", "cx21"), ("large", "cx31"), ("xlarge", "cx41")]

/-- `HCloudProvider.set_images`. -/
def HCloudProvider.set_images : List (String × String) :=
  [("ubuntu22", "ubuntu-20.04"), ("debian11", "debian-11"),
    ("rocky9", "rocky-9"), ("centos7", "centos-7")]

/-- `ScalewayProvider.set_sizes`. -/
def ScalewayProvider.set_sizes : List (String × String) :=
  [("small", "DEV1-S"), ("medium", "DEV1-M"), ("large", "DEV1-L"),
    ("xlarge", "DEV1-XL")]

/-- `ScalewayProvider.set_images`. -/
def ScalewayProvider.set_images : List (String × String) :=
  [("ubuntu22", "ubuntu_jammy"), ("debian11", "debian_bullseye"),
    ("rocky9", "rockylinux_9"), ("centos7", "centos_7.9")]

/-- `HCloudProvider.provision_private_network` (lines 160-165): one call to
`hcloud.Network("network", ip_range=provider_config["network_config"]["private_ip_range"])`;
the range string is passed through verbatim, without any validation. -/
def HCloudProvider.provision_private_network (cfg : HCloudConfig) : HNetwork :=
  { resource_name := "network"
    ip_range := cfg.network_config.private_ip_range }

/-- The `hcloud.NetworkSubnet` call made for one subnet entry inside
`HCloudProvider.provision_private_subnets`. -/
def HCloudProvider.mkNetworkSubnet (network : HNetwork) (subnet : SubnetConfig) :
    HNetworkSubnet :=
  { resource_name := subnet.name
    network_id := network.id
    ip_range := subnet.subnet_ip_range
    network_zone := "eu-central"
    type := "cloud" }

/-- `HCloudProvider.provision_private_subnets` (lines 167-179): start from
`ret = []` and append one `hcloud.NetworkSubnet(...)` per entry of
`provider_config["network_config"]["subnets"]`, in order. -/
def HCloudProvider.provision_private_subnets (cfg : HCloudConfig)
    (network : HNetwork) : List HNetworkSubnet :=
  cfg.network_config.subnets.foldl
    (fun ret subnet => ret ++ [HCloudProvider.mkNetworkSubnet network subnet]) []

/-- Mutable state of an `HCloudProvider` instance after `__init__`. -/
structure HCloudState where
  ssh_keys : Option (List String)
  provider_config : HCloudConfig
  sizes : List (String × String)
  images : List (String × String)
  network : HNetwork
  subnets : List HNetworkSubnet
  servers : List HServer
deriving DecidableEq, Repr

/-- Mutable state of a `ScalewayProvider` instance after `__init__`.
`ScalewayProvider` overrides neither network nor subnet provisioning, so
`self.network` and `self.subnets` are the base-class stubs' `None`. -/
structure ScalewayState where
  ssh_keys : Option (List String)
  provider_config : ScalewayConfig
  sizes : List (String × String)
  images : List (String × String)
  network : Option Unit
  subnets : Option Unit
  servers : List ScalewayServersItem
deriving DecidableEq, Repr

/-- `Provider.__init__` (lines 45-54) as executed by an `HCloudProvider`:
`set_sizes(); set_images(); network = provision_private_network();
subnets = provision_private_subnets(); servers = []`, with the sequence of
dispatched methods traced.  The source performs no validation here, so
construction cannot fail. -/
def HCloudProvider.init (ssh_keys : Option (List String)) (cfg : HCloudConfig) :
    Except PyError (HCloudState × List InitCall) :=
  let network := HCloudProvider.provision_private_network cfg
  .ok ({ ssh_keys := ssh_keys
         provider_config := cfg
         sizes := HCloudProvider.set_sizes
         images := HCloudProvider.set_images
         network := network
         subnets := HCloudProvider.provision_private_subnets cfg network
         servers := [] },
       [.set_sizes, .set_images, .provision_private_network,
        .provision_private_subnets])

/-- `Provider.__init__` (lines 45-54) as executed by a `ScalewayProvider`:
the network and subnet provisioners resolve to the base-class `pass` stubs,
which are still invoked and return `None`. -/
def ScalewayProvider.init (ssh_keys : Option (List String))
    (cfg : ScalewayConfig) : Except PyError (ScalewayState × List InitCall) :=
  .ok ({ ssh_keys := ssh_keys
         provider_config := cfg
         sizes := ScalewayProvider.set_sizes
         images := ScalewayProvider.set_images
         network := Provider.provision_private_network
         subnets := Provider.provision_private_subnets
         servers := [] },
       [.set_sizes, .set_images, .provision_private_network,
        .provision_private_subnets])

/-- Modelled from the spec: the source declares no `SupportsSubnets`
capability flag anywhere; the specification requires one per provider and
says subnets are a capability Scaleway lacks (also stated by the docstring of
`network_config_is_valid`: "Hetzner supports subnets within your network,
while Scaleway does not"). -/
def ScalewayProvider.supports_subnets : Bool :=
  false

/-- Modelled from the spec: `HCloudProvider` supports subnets. -/
def HCloudProvider.supports_subnets : Bool :=
  true

/-- `HCloudProvider.provision_server` (lines 181-201): if the server object is
valid, build an `hcloud.Server(...)` handle from the translated size and
image, the provider's ssh keys, a `ServerNetworkArgs` attachment to the
private network carrying `server.ip_address`, and the configured location,
then append that handle to `self.servers`; otherwise
`raise Exception("Invalid server object")` before any SDK call. -/
def HCloudProvider.provision_server (st : HCloudState) (server : Server) :
    Except PyError HCloudState × List SdkCall :=
  if Provider.server_object_is_valid st.sizes st.images server then
    match dictGet st.sizes server.size with
    | .error e => (.error e, [])
    | .ok server_type =>
      match dictGet st.images server.image with
      | .error e => (.error e, [])
      | .ok image =>
        let server_instance : HServer :=
          { resource_name := server.name
            server_type := server_type
            image := image
            ssh_keys := st.ssh_keys
            networks := [{ network_id := st.network.id, ip := server.ip_address }]
            location := st.provider_config.location }
        (.ok { st with servers := st.servers ++ [server_instance] },
         [.hcloudServer server.name])
  else
    (.error (.Exception "Invalid server object"), [])

/-- `ScalewayProvider.provision_server` (lines 228-240): if the server object
is valid, create a public IP `scaleway.InstanceIp(f"public_ip_{server.name}")`,
create `scaleway.InstanceServer(server.name, image=..., type=..., ip_id=ip.id)`
binding it to `server_instance`, and then append `server` — the input
descriptor, not `server_instance` — to `self.servers`; otherwise
`raise Exception("Invalid server object")` before any SDK call. -/
def ScalewayProvider.provision_server (st : ScalewayState) (server : Server) :
    Except PyError ScalewayState × List SdkCall :=
  if Provider.server_object_is_valid st.sizes st.images server then
    let ip : InstanceIp := { resource_name := "public_ip_" ++ server.name }
    match dictGet st.images server.image with
    | .error e => (.error e, [.scalewayInstanceIp ip.resource_name])
    | .ok image =>
      match dictGet st.sizes server.size with
      | .error e => (.error e, [.scalewayInstanceIp ip.resource_name])
      | .ok ty =>
        let server_instance : InstanceServer :=
          { resource_name := server.name
            image := image
            type := ty
            ip_id := ip.id }
        let _ := server_instance
        (.ok { st with servers := st.servers ++ [.desc server] },
         [.scalewayInstanceIp ip.resource_name,
          .scalewayInstanceServer server.name])
  else
    (.error (.Exception "Invalid server object"), [])

/-- A provider value held by the `Infra` orchestrator's dictionary. -/
inductive ProviderState where
  | hcloud (st : HCloudState)
  | scaleway (st : ScalewayState)
deriving DecidableEq, Repr

/-- Dynamic dispatch of `provision_server` on a registered provider. -/
def ProviderState.provision_server (p : ProviderState) (server : Server) :
    Except PyError ProviderState × List SdkCall :=
  match p with
  | .hcloud st =>
    let r := HCloudProvider.provision_server st server
    (r.1.map .hcloud, r.2)
  | .scaleway st =>
    let r := ScalewayProvider.provision_server st server
    (r.1.map .scaleway, r.2)

/-- The `Infra` orchestrator: a dictionary from provider name to provider. -/
structure Infra where
  providers : List (String × ProviderState)
deriving DecidableEq, Repr

/-- `Infra.provision_server` (lines 254-261):
`self.providers[provider_name].provision_server(server)` — a bare dictionary
lookup (raising `KeyError` when the name is absent) followed by delegation to
the selected provider, whose state update and SDK trace are propagated
unchanged. -/
def Infra.provision_server (self : Infra) (server : Server)
    (provider_name : String) : Except PyError Infra × List SdkCall :=
  match self.providers.lookup provider_name with
  | none => (.error (.KeyError provider_name), [])
  | some p =>
    let r := p.provision_server server
    (r.1.map (fun p2 =>
      { providers := self.providers.map
          (fun kv => if kv.1 = provider_name then (kv.1, p2) else kv) }),
     r.2)

/-- Whether a result is a raised `InvalidResourceError`. -/
def raisesInvalidResource {α : Type} : Except PyError α → Bool
  | .error (.InvalidResourceError _) => true
  | _ => false

/-- Whether a result is a raised `ConfigurationError`. -/
def raisesConfigurationError {α : Type} : Except PyError α → Bool
  | .error (.ConfigurationError _) => true
  | _ => false

/-- Whether a result is a raised `UnknownProviderError`. -/
def raisesUnknownProvider {α : Type} : Except PyError α → Bool
  | .error (.UnknownProviderError _) => true
  | _ => false

/-- Split a character list on a separator character (both separator runs and
edges produce empty pieces, as in Python's `str.split(sep)`). -/
def splitOnChar (c : Char) : List Char → List (List Char)
  | [] => [[]]
  | x :: xs =>
    let r := splitOnChar c xs
    if x = c then [] :: r
    else
      match r with
      | [] => [[x]]
      | y :: ys => (x :: y) :: ys

/-- Decimal reading of a non-empty all-digit character list. -/
def digitsToNat? (l : List Char) : Option Nat :=
  if l = [] then none
  else if l.all (fun c => c.isDigit) then
    some (l.foldl (fun n c => n * 10 + (c.toNat - 48)) 0)
  else none

/-- An IPv4 octet: a decimal number at most 255. -/
def isOctet (l : List Char) : Bool :=
  match digitsToNat? l with
  | some n => n ≤ 255
  | none => false

/-- Modelled from the spec: validity of a CIDR string (`a.b.c.d/p` with each
octet at most 255 and the mask length at most 32), the notion the spec's
`ConfigurationError` requirement quantifies over; the source contains no CIDR
check at all. -/
def isValidCIDR (s : String) : Bool :=
  match splitOnChar '/' s.data with
  | [addr, plen] =>
    (match splitOnChar '.' addr with
     | [a, b, c, d] => isOctet a && isOctet b && isOctet c && isOctet d
     | _ => false)
      &&
    (match digitsToNat? plen with
     | some n => n ≤ 32
     | none => false)
  | _ => false

/-! ### Concrete values from `dev/__main__.py` -/

/-- The ssh keys registered in `dev/__main__.py`. -/
def SSH_KEYS : List String :=
  ["daniel@Daniels-MBP"]

/-- The Hetzner provider configuration built in `dev/__main__.py`. -/
def hetzner_config : HCloudConfig :=
  { network_config :=
      { private_ip_range := "172.21.0.0/16"
        subnets := [{ subnet_ip_range := "172.21.0.0/24", name := "subnet1" }] }
    location := "fsn1" }

/-- The Scaleway provider configuration built in `dev/__main__.py`. -/
def scaleway_config : ScalewayConfig :=
  { network_config := { private_ip_range := "172.22.0.0/16" } }

/-- The `HCloudProvider` instance of `dev/__main__.py` right after construction. -/
def hetzner_provider : HCloudState :=
  { ssh_keys := some SSH_KEYS
    provider_config := hetzner_config
    sizes := HCloudProvider.set_sizes
    images := HCloudProvider.set_images
    network := HCloudProvider.provision_private_network hetzner_config
    subnets := HCloudProvider.provision_private_subnets hetzner_config
      (HCloudProvider.provision_private_network hetzner_config)
    servers := [] }

/-- The `ScalewayProvider` instance of `dev/__main__.py` right after construction. -/
def scaleway_provider : ScalewayState :=
  { ssh_keys := some SSH_KEYS
    provider_config := scaleway_config
    sizes := ScalewayProvider.set_sizes
    images := ScalewayProvider.set_images
    network := Provider.provision_private_network
    subnets := Provider.provision_private_subnets
    servers := [] }

/-- The `Infra` orchestrator of `dev/__main__.py`. -/
def dev_infra : Infra :=
  { providers := [("hetzner", .hcloud hetzner_provider),
                  ("scaleway", .scaleway scaleway_provider)] }

/-- The server descriptor provisioned in `dev/__main__.py`. -/
def xardas : Server :=
  { name := "xardas", size := "small", image := "rocky9"
    ip_address := some "172.21.0.10" }

/-- The same descriptor without an IP address. -/
def xardasNoIp : Server :=
  { name := "xardas", size := "small", image := "rocky9", ip_address := none }

/-- The invalid descriptor from the specification's examples: neither size
`"tiny"` nor image `"fedora"` occurs in any table. -/
def invalidServer : Server :=
  { name := "x", size := "tiny", image := "fedora" }

/-- A Hetzner configuration whose `private_ip_range` is not a CIDR at all. -/
def bad_cidr_config : HCloudConfig :=
  { network_config := { private_ip_range := "not-a-cidr" }
    location := "fsn1" }

/-- The `hcloud.Server` handle created for `xardas` in `dev/__main__.py`. -/
def xardas_hcloud_handle : HServer :=
  { resource_name := "xardas", server_type := "cx11", image := "rocky-9"
    ssh_keys := some SSH_KEYS
    networks := [{ network_id := "network", ip := some "172.21.0.10" }]
    location := "fsn1" }

/-- The Hetzner provider state after provisioning `xardas`. -/
def hetzner_provider_after : HCloudState :=
  { hetzner_provider with servers := [xardas_hcloud_handle] }

/-- The Scaleway provider state after provisioning `xardas`. -/
def scaleway_provider_after : ScalewayState :=
  { scaleway_provider with servers := [.desc xardas] }

/-! ### Association-list helper lemmas -/

/-- If a key occurs among the mapped-out keys of an association list, then
`List.lookup` finds a value for it. -/
theorem lookup_eq_some_of_keys_contains {l : List (String × String)} {k : String}
    (h : (l.map Prod.fst).contains k = true) : ∃ v, l.lookup k = some v := by
  induction l with
  | nil => simp [List.contains] at h
  | cons p t ih =>
    obtain ⟨k1, v1⟩ := p
    by_cases hk : (k == k1) = true
    · exact ⟨v1, by simp [List.lookup, hk]⟩
    · have h' : ((t.map Prod.fst).contains k) = true := by
        simpa [List.contains, List.elem_cons, hk] using h
      obtain ⟨v, hv⟩ := ih h'
      exact ⟨v, by simp [List.lookup, hk, hv]⟩

/-- Conversely, a successful `List.lookup` means the key occurs among the keys. -/
theorem keys_contains_of_lookup_eq_some {l : List (String × String)} {k v : String}
    (h : l.lookup k = some v) : (l.map Prod.fst).contains k = true := by
  induction l with
  | nil => simp [List.lookup] at h
  | cons p t ih =>
    obtain ⟨k1, v1⟩ := p
    by_cases hk : (k == k1) = true
    · simp [List.contains, List.elem_cons, hk]
    · have h' : t.lookup k = some v := by simpa [List.lookup, hk] using h
      simpa [List.contains, List.elem_cons, hk] using ih h'

/-- `server_object_is_valid` written as the conjunction of its two key
membership tests. -/
theorem server_object_is_valid_eq (sizes images : List (String × String))
    (s : Server) :
    Provider.server_object_is_valid sizes images s =
      ((images.map Prod.fst).contains s.image
        && (sizes.map Prod.fst).contains s.size) := by
  by_cases h : ((images.map Prod.fst).contains s.image
      && (sizes.map Prod.fst).contains s.size) = true
  · simp [Provider.server_object_is_valid, h]
  · simp only [Bool.not_eq_true] at h
    simp [Provider.server_object_is_valid, h]

/-! ### Claims -/

/-- C1: for every Server `s` and every provider's size/image tables,
`server_object_is_valid` returns true iff `s.size` is a key of the size table
and `s.image` is a key of the image table. -/
theorem C1_server_object_is_valid_iff (sizes images : List (String × String))
    (s : Server) :
    Provider.server_object_is_valid sizes images s = true ↔
      s.size ∈ sizes.map Prod.fst ∧ s.image ∈ images.map Prod.fst := by
  rw [server_object_is_valid_eq, Bool.and_eq_true]
  simp [List.contains, List.elem_iff, and_comm]

/-- C9: validation depends only on the `size` and `image` fields of the
server descriptor — two descriptors agreeing on those two fields validate
identically against the same tables, whatever their `name` and `ip_address`. -/
theorem C9_valid_depends_only_on_size_image (sizes images : List (String × String))
    (s1 s2 : Server) (hsize : s1.size = s2.size) (himage : s1.image = s2.image) :
    Provider.server_object_is_valid sizes images s1 =
      Provider.server_object_is_valid sizes images s2 := by
  simp [Provider.server_object_is_valid, hsize, himage]

/-- Witness for C9 at concrete inputs: two descriptors sharing size and image
but differing in name and ip_address validate identically. -/
theorem C9_valid_depends_only_on_size_image_witness :
    Provider.server_object_is_valid HCloudProvider.set_sizes
        HCloudProvider.set_images
        { name := "a", size := "small", image := "rocky9"
          ip_address := some "1.2.3.4" } =
      Provider.server_object_is_valid HCloudProvider.set_sizes
        HCloudProvider.set_images
        { name := "b", size := "small", image := "rocky9", ip_address := none } :=
  C9_valid_depends_only_on_size_image HCloudProvider.set_sizes
    HCloudProvider.set_images _ _ rfl rfl

/-- C3: when `server_object_is_valid` returns false, `provision_server`
raises immediately: the SDK-call trace is empty (no vendor call is made) and
the result is an error, so in the state-passing embedding the caller's
provider state — its server list included — is exactly what it was. -/
theorem C3_invalid_no_sdk_call_no_state_change (hst : HCloudState)
    (sst : ScalewayState) (s : Server) :
    (Provider.server_object_is_valid hst.sizes hst.images s = false →
      HCloudProvider.provision_server hst s =
        (.error (.Exception "Invalid server object"), [])) ∧
    (Provider.server_object_is_valid sst.sizes sst.images s = false →
      ScalewayProvider.provision_server sst s =
        (.error (.Exception "Invalid server object"), [])) := by
  constructor
  · intro hv
    simp [HCloudProvider.provision_server, hv]
  · intro hv
    simp [ScalewayProvider.provision_server, hv]

/-- Witness for C3: the spec's invalid descriptor (size `"tiny"`, image
`"fedora"`) against the constructed providers of `dev/__main__.py`. -/
theorem C3_invalid_no_sdk_call_no_state_change_witness :
    HCloudProvider.provision_server hetzner_provider invalidServer =
        (.error (.Exception "Invalid server object"), []) ∧
    ScalewayProvider.provision_server scaleway_provider invalidServer =
        (.error (.Exception "Invalid server object"), []) :=
  ⟨(C3_invalid_no_sdk_call_no_state_change hetzner_provider scaleway_provider
      invalidServer).1 (by decide),
   (C3_invalid_no_sdk_call_no_state_change hetzner_provider scaleway_provider
      invalidServer).2 (by decide)⟩

/-- A successful run of `HCloudProvider.provision_server`: when both table
lookups succeed, the vendor handle built from the translated size and image is
appended to the server list and exactly one `hcloud.Server` SDK call is made. -/
theorem hcloud_provision_server_run (st : HCloudState) (s : Server)
    (ty im : String) (hty : st.sizes.lookup s.size = some ty)
    (him : st.images.lookup s.image = some im) :
    HCloudProvider.provision_server st s =
      (.ok { st with servers := st.servers ++
          [{ resource_name := s.name, server_type := ty, image := im
             ssh_keys := st.ssh_keys
             networks := [{ network_id := st.network.id, ip := s.ip_address }]
             location := st.provider_config.location }] },
       [.hcloudServer s.name]) := by
  have hv : Provider.server_object_is_valid st.sizes st.images s = true := by
    rw [server_object_is_valid_eq, Bool.and_eq_true]
    exact ⟨keys_contains_of_lookup_eq_some him, keys_contains_of_lookup_eq_some hty⟩
  simp [HCloudProvider.provision_server, hv, dictGet, hty, him]

/-- A successful run of `ScalewayProvider.provision_server`: when both table
lookups succeed, a public-IP and an instance-server SDK call are made, and the
input descriptor itself is what gets appended to the server list. -/
theorem scaleway_provision_server_run (st : ScalewayState) (s : Server)
    (ty im : String) (hty : st.sizes.lookup s.size = some ty)
    (him : st.images.lookup s.image = some im) :
    ScalewayProvider.provision_server st s =
      (.ok { st with servers := st.servers ++ [.desc s] },
       [.scalewayInstanceIp ("public_ip_" ++ s.name),
        .scalewayInstanceServer s.name]) := by
  have hv : Provider.server_object_is_valid st.sizes st.images s = true := by
    rw [server_object_is_valid_eq, Bool.and_eq_true]
    exact ⟨keys_contains_of_lookup_eq_some him, keys_contains_of_lookup_eq_some hty⟩
  simp [ScalewayProvider.provision_server, hv, dictGet, hty, him]

/-- C2 counterexample: against the constructed Hetzner provider, the invalid
descriptor makes `provision_server` raise the generic
`Exception("Invalid server object")` — not an `InvalidResourceError` as the
claim requires. -/
theorem C2_generic_exception_counterexample :
    Provider.server_object_is_valid hetzner_provider.sizes
        hetzner_provider.images invalidServer = false ∧
    (HCloudProvider.provision_server hetzner_provider invalidServer).1 =
        .error (.Exception "Invalid server object") ∧
    raisesInvalidResource
        (HCloudProvider.provision_server hetzner_provider invalidServer).1 =
      false := by
  exact ⟨by decide, rfl, rfl⟩

/-- C2 amended: for every server whose size or image is not a key of the
selected provider's tables, `provision_server` raises the generic
`Exception("Invalid server object")` (the source defines no
`InvalidResourceError`); for every valid server it raises nothing. -/
theorem C2_invalid_raises_generic_exception (hst : HCloudState)
    (sst : ScalewayState) (s t : Server) :
    (Provider.server_object_is_valid hst.sizes hst.images s = false →
      (HCloudProvider.provision_server hst s).1 =
        .error (.Exception "Invalid server object")) ∧
    (Provider.server_object_is_valid hst.sizes hst.images s = true →
      ∃ st2, (HCloudProvider.provision_server hst s).1 = .ok st2) ∧
    (Provider.server_object_is_valid sst.sizes sst.images t = false →
      (ScalewayProvider.provision_server sst t).1 =
        .error (.Exception "Invalid server object")) ∧
    (Provider.server_object_is_valid sst.sizes sst.images t = true →
      ∃ st2, (ScalewayProvider.provision_server sst t).1 = .ok st2) := by
  refine ⟨?_, ?_, ?_, ?_⟩
  · intro hv
    simp [HCloudProvider.provision_server, hv]
  · intro hv
    rw [server_object_is_valid_eq, Bool.and_eq_true] at hv
    obtain ⟨v1, h1⟩ := lookup_eq_some_of_keys_contains hv.2
    obtain ⟨v2, h2⟩ := lookup_eq_some_of_keys_contains hv.1
    exact ⟨_, by rw [hcloud_provision_server_run hst s v1 v2 h1 h2]⟩
  · intro hv
    simp [ScalewayProvider.provision_server, hv]
  · intro hv
    rw [server_object_is_valid_eq, Bool.and_eq_true] at hv
    obtain ⟨v1, h1⟩ := lookup_eq_some_of_keys_contains hv.2
    obtain ⟨v2, h2⟩ := lookup_eq_some_of_keys_contains hv.1
    exact ⟨_, by rw [scaleway_provision_server_run sst t v1 v2 h1 h2]⟩

/-- Witness for C2 amended: the invalid descriptor raises the generic
exception on the Hetzner provider, and the valid `xardas` descriptor raises
nothing on either provider. -/
theorem C2_invalid_raises_generic_exception_witness :
    ((HCloudProvider.provision_server hetzner_provider invalidServer).1 =
        .error (.Exception "Invalid server object")) ∧
    (∃ st2, (HCloudProvider.provision_server hetzner_provider xardas).1 =
        .ok st2) ∧
    (∃ st2, (ScalewayProvider.provision_server scaleway_provider xardas).1 =
        .ok st2) :=
  ⟨(C2_invalid_raises_generic_exception hetzner_provider scaleway_provider
      invalidServer xardas).1 (by decide),
   (C2_invalid_raises_generic_exception hetzner_provider scaleway_provider
      xardas xardas).2.1 (by decide),
   (C2_invalid_raises_generic_exception hetzner_provider scaleway_provider
      xardas xardas).2.2.2 (by decide)⟩

/-- C4 counterexample: the orchestrator of `dev/__main__.py` has no provider
named `"nonexistent"`; `Infra.provision_server` then raises a bare `KeyError`
from the dictionary lookup — not an `UnknownProviderError` as the claim
requires (no such error kind exists in the source). -/
theorem C4_unknown_provider_counterexample :
    dev_infra.providers.lookup "nonexistent" = none ∧
    Infra.provision_server dev_infra xardas "nonexistent" =
        (.error (.KeyError "nonexistent"), []) ∧
    raisesUnknownProvider
        (Infra.provision_server dev_infra xardas "nonexistent").1 = false := by
  exact ⟨rfl, rfl, rfl⟩

/-- C4 amended: for every provider name absent from the orchestrator's
mapping, `Infra.provision_server` raises the unqualified dictionary lookup
failure `KeyError` (not an `UnknownProviderError`) and performs no side
effects: no provider is invoked, no SDK call is traced, and no provider state
changes. -/
theorem C4_unknown_provider_raises_keyerror (infra : Infra) (s : Server)
    (name : String) (h : infra.providers.lookup name = none) :
    Infra.provision_server infra s name = (.error (.KeyError name), []) := by
  simp [Infra.provision_server, h]

/-- Witness for C4 amended at the orchestrator of `dev/__main__.py`. -/
theorem C4_unknown_provider_raises_keyerror_witness :
    Infra.provision_server dev_infra xardas "nonexistent" =
      (.error (.KeyError "nonexistent"), []) :=
  C4_unknown_provider_raises_keyerror dev_infra xardas "nonexistent" rfl

/-- C5 counterexample: on the constructed Scaleway provider, provisioning the
valid `xardas` descriptor appends the input descriptor itself — not the
created `scaleway.InstanceServer` vendor handle — to the server list, and the
result is bit-for-bit identical when `ip_address` is dropped, so the server is
not attached to any private network via `ip_address` either. -/
theorem C5_result_handle_counterexample :
    (ScalewayProvider.provision_server scaleway_provider xardas).1 =
        .ok { scaleway_provider with servers := [.desc xardas] } ∧
    ((ScalewayProvider.provision_server scaleway_provider xardas).1.map
        (fun st => st.servers.all (fun item => item.isHandle))) = .ok false ∧
    (ScalewayProvider.provision_server scaleway_provider xardas).2 =
        [.scalewayInstanceIp "public_ip_xardas",
         .scalewayInstanceServer "xardas"] ∧
    (ScalewayProvider.provision_server scaleway_provider xardas).2 =
        (ScalewayProvider.provision_server scaleway_provider xardasNoIp).2 := by
  refine ⟨rfl, rfl, rfl, rfl⟩

/-- C5 amended: for a server that validates, `HCloudProvider.provision_server`
behaves exactly as the claim states — translated size and image, attachment to
the provider's network carrying `server.ip_address`, and the created vendor
handle appended.  `ScalewayProvider.provision_server`, however, allocates a
fresh public IP instead of attaching to the private network (`ip_address` is
never read), and appends the input `Server` descriptor — not the created
`InstanceServer` handle — to its server list. -/
theorem C5_success_translation_append (hst : HCloudState) (sst : ScalewayState)
    (s t : Server) (ty im ty2 im2 : String)
    (h1 : hst.sizes.lookup s.size = some ty)
    (h2 : hst.images.lookup s.image = some im)
    (h3 : sst.sizes.lookup t.size = some ty2)
    (h4 : sst.images.lookup t.image = some im2) :
    HCloudProvider.provision_server hst s =
      (.ok { hst with servers := hst.servers ++
          [{ resource_name := s.name, server_type := ty, image := im
             ssh_keys := hst.ssh_keys
             networks := [{ network_id := hst.network.id, ip := s.ip_address }]
             location := hst.provider_config.location }] },
       [.hcloudServer s.name]) ∧
    ScalewayProvider.provision_server sst t =
      (.ok { sst with servers := sst.servers ++ [.desc t] },
       [.scalewayInstanceIp ("public_ip_" ++ t.name),
        .scalewayInstanceServer t.name]) :=
  ⟨hcloud_provision_server_run hst s ty im h1 h2,
   scaleway_provision_server_run sst t ty2 im2 h3 h4⟩

/-- Witness for C5 amended: the end-to-end `xardas` provisioning of
`dev/__main__.py`, with size `"small"` translated to `"cx11"` and image
`"rocky9"` to `"rocky-9"` on Hetzner. -/
theorem C5_success_translation_append_witness :
    HCloudProvider.provision_server hetzner_provider xardas =
      (.ok { hetzner_provider with servers :=
          [{ resource_name := "xardas", server_type := "cx11"
             image := "rocky-9"
             ssh_keys := some SSH_KEYS
             networks := [{ network_id := "network"
                            ip := some "172.21.0.10" }]
             location := "fsn1" }] },
       [.hcloudServer "xardas"]) ∧
    ScalewayProvider.provision_server scaleway_provider xardas =
      (.ok { scaleway_provider with servers := [.desc xardas] },
       [.scalewayInstanceIp "public_ip_xardas",
        .scalewayInstanceServer "xardas"]) :=
  C5_success_translation_append hetzner_provider scaleway_provider xardas
    xardas "cx11" "rocky-9" "DEV1-S" "rockylinux_9" rfl rfl rfl rfl

/-- The append-in-a-loop shape of `provision_private_subnets` is a map. -/
theorem foldl_append_singleton {α β : Type} (f : α → β) (l : List α)
    (acc : List β) :
    l.foldl (fun ret x => ret ++ [f x]) acc = acc ++ l.map f := by
  induction l generalizing acc with
  | nil => simp
  | cons x xs ih => simp [List.foldl_cons, ih]

/-- `provision_private_subnets` as a map over the configured subnet entries. -/
theorem provision_private_subnets_eq_map (cfg : HCloudConfig)
    (network : HNetwork) :
    HCloudProvider.provision_private_subnets cfg network =
      cfg.network_config.subnets.map (HCloudProvider.mkNetworkSubnet network) := by
  simpa using foldl_append_singleton (HCloudProvider.mkNetworkSubnet network)
    cfg.network_config.subnets []

/-- C6: subnet provisioning creates exactly one subnet handle per configured
subnet entry, the i-th handle being the `hcloud.NetworkSubnet` call made from
the i-th entry — order preserved. -/
theorem C6_one_subnet_handle_per_entry (cfg : HCloudConfig) (network : HNetwork) :
    (HCloudProvider.provision_private_subnets cfg network).length =
        cfg.network_config.subnets.length ∧
    ∀ (i : Nat)
      (h1 : i < (HCloudProvider.provision_private_subnets cfg network).length)
      (h2 : i < cfg.network_config.subnets.length),
      (HCloudProvider.provision_private_subnets cfg network).get ⟨i, h1⟩ =
        HCloudProvider.mkNetworkSubnet network
          (cfg.network_config.subnets.get ⟨i, h2⟩) := by
  constructor
  · rw [provision_private_subnets_eq_map]
    simp
  · intro i h1 h2
    rw [List.get_of_eq (provision_private_subnets_eq_map cfg network) ⟨i, h1⟩]
    simp [List.get_eq_getElem]

/-- Witness for C6 on the configuration of `dev/__main__.py`: one subnet
entry, one handle, built from `subnet1`. -/
theorem C6_one_subnet_handle_per_entry_witness :
    (HCloudProvider.provision_private_subnets hetzner_config
        hetzner_provider.network).length =
      hetzner_config.network_config.subnets.length ∧
    (HCloudProvider.provision_private_subnets hetzner_config
        hetzner_provider.network).get ⟨0, by decide⟩ =
      HCloudProvider.mkNetworkSubnet hetzner_provider.network
        (hetzner_config.network_config.subnets.get ⟨0, by decide⟩) :=
  ⟨(C6_one_subnet_handle_per_entry hetzner_config hetzner_provider.network).1,
   (C6_one_subnet_handle_per_entry hetzner_config hetzner_provider.network).2
     0 (by decide) (by decide)⟩

/-- C7 counterexample: with `private_ip_range = "not-a-cidr"` — not a valid
CIDR — provider construction does **not** fail with a `ConfigurationError`:
it succeeds and passes the malformed string verbatim into the
`hcloud.Network` handle. -/
theorem C7_no_cidr_validation_counterexample :
    isValidCIDR "not-a-cidr" = false ∧
    (HCloudProvider.init (some SSH_KEYS) bad_cidr_config).map
        (fun p => p.1.network) =
      .ok { resource_name := "network", ip_range := "not-a-cidr" } ∧
    raisesConfigurationError
        (HCloudProvider.init (some SSH_KEYS) bad_cidr_config) = false := by
  refine ⟨by decide, rfl, rfl⟩

/-- C7 amended: provider construction performs no CIDR validation at all —
for every configuration, valid CIDR or not, `provision_private_network`
succeeds and the `hcloud.Network` handle carries `private_ip_range` verbatim;
no `ConfigurationError` is ever raised. -/
theorem C7_network_provision_never_fails (ssh : Option (List String))
    (cfg : HCloudConfig) :
    (∃ st trace, HCloudProvider.init ssh cfg = .ok (st, trace) ∧
      st.network = { resource_name := "network"
                     ip_range := cfg.network_config.private_ip_range }) ∧
    raisesConfigurationError (HCloudProvider.init ssh cfg) = false :=
  ⟨⟨_, _, rfl, rfl⟩, rfl⟩

/-- C8 counterexample: `ScalewayProvider` does not support subnets (its
capability flag, modelled from the spec, is false), yet constructing it does
invoke `provision_private_subnets` — the inherited base-class stub. -/
theorem C8_subnet_call_not_skipped_counterexample :
    ScalewayProvider.supports_subnets = false ∧
    (ScalewayProvider.init (some SSH_KEYS) scaleway_config).map
        (fun p => p.2.contains InitCall.provision_private_subnets) = .ok true := by
  exact ⟨rfl, rfl⟩

/-- C8 amended: the source declares no `SupportsSubnets` capability flag and
never skips the call: `Provider.__init__` unconditionally invokes
`provision_private_subnets` on every provider, including `ScalewayProvider`
which lacks subnet support — there it resolves to the base-class `pass` stub
and leaves `self.subnets = None`. -/
theorem C8_init_always_calls_subnet_provisioning (ssh : Option (List String))
    (cfg : ScalewayConfig) :
    ScalewayProvider.supports_subnets = false ∧
    (ScalewayProvider.init ssh cfg).map
        (fun p => p.2.contains InitCall.provision_private_subnets) = .ok true ∧
    (ScalewayProvider.init ssh cfg).map (fun p => p.1.subnets) = .ok none :=
  ⟨rfl, rfl, rfl⟩

/-- C10: every successful `provision_server` call, on either provider,
appends exactly one element to the provider's server list and leaves every
other provider field (`ssh_keys`, `provider_config`, `sizes`, `images`,
`network`, `subnets`) unchanged; no operation removes elements — a failing
call returns an error without a new state, so over a run the list only
grows by such single appends. -/
theorem C10_success_appends_one_and_frames (hst hst2 : HCloudState)
    (sst sst2 : ScalewayState) (s t : Server) (tr tr2 : List SdkCall)
    (hH : HCloudProvider.provision_server hst s = (.ok hst2, tr))
    (hS : ScalewayProvider.provision_server sst t = (.ok sst2, tr2)) :
    ((∃ x, hst2.servers = hst.servers ++ [x]) ∧
      hst2.ssh_keys = hst.ssh_keys ∧
      hst2.provider_config = hst.provider_config ∧
      hst2.sizes = hst.sizes ∧ hst2.images = hst.images ∧
      hst2.network = hst.network ∧ hst2.subnets = hst.subnets) ∧
    ((∃ y, sst2.servers = sst.servers ++ [y]) ∧
      sst2.ssh_keys = sst.ssh_keys ∧
      sst2.provider_config = sst.provider_config ∧
      sst2.sizes = sst.sizes ∧ sst2.images = sst.images ∧
      sst2.network = sst.network ∧ sst2.subnets = sst.subnets) := by
  constructor
  · by_cases hv : Provider.server_object_is_valid hst.sizes hst.images s = true
    · rw [server_object_is_valid_eq, Bool.and_eq_true] at hv
      obtain ⟨v1, h1⟩ := lookup_eq_some_of_keys_contains hv.2
      obtain ⟨v2, h2⟩ := lookup_eq_some_of_keys_contains hv.1
      rw [hcloud_provision_server_run hst s v1 v2 h1 h2] at hH
      have h3 := Except.ok.inj (congrArg Prod.fst hH)
      subst h3
      exact ⟨⟨_, rfl⟩, rfl, rfl, rfl, rfl, rfl, rfl⟩
    · rw [Bool.not_eq_true] at hv
      simp [HCloudProvider.provision_server, hv] at hH
  · by_cases hv : Provider.server_object_is_valid sst.sizes sst.images t = true
    · rw [server_object_is_valid_eq, Bool.and_eq_true] at hv
      obtain ⟨v1, h1⟩ := lookup_eq_some_of_keys_contains hv.2
      obtain ⟨v2, h2⟩ := lookup_eq_some_of_keys_contains hv.1
      rw [scaleway_provision_server_run sst t v1 v2 h1 h2] at hS
      have h3 := Except.ok.inj (congrArg Prod.fst hS)
      subst h3
      exact ⟨⟨_, rfl⟩, rfl, rfl, rfl, rfl, rfl, rfl⟩
    · rw [Bool.not_eq_true] at hv
      simp [ScalewayProvider.provision_server, hv] at hS

/-- Witness for C10: the successful `xardas` provisionings on both
constructed providers of `dev/__main__.py`. -/
theorem C10_success_appends_one_and_frames_witness :
    ((∃ x, hetzner_provider_after.servers = hetzner_provider.servers ++ [x]) ∧
      hetzner_provider_after.ssh_keys = hetzner_provider.ssh_keys ∧
      hetzner_provider_after.provider_config = hetzner_provider.provider_config ∧
      hetzner_provider_after.sizes = hetzner_provider.sizes ∧
      hetzner_provider_after.images = hetzner_provider.images ∧
      hetzner_provider_after.network = hetzner_provider.network ∧
      hetzner_provider_after.subnets = hetzner_provider.subnets) ∧
    ((∃ y, scaleway_provider_after.servers = scaleway_provider.servers ++ [y]) ∧
      scaleway_provider_after.ssh_keys = scaleway_provider.ssh_keys ∧
      scaleway_provider_after.provider_config = scaleway_provider.provider_config ∧
      scaleway_provider_after.sizes = scaleway_provider.sizes ∧
      scaleway_provider_after.images = scaleway_provider.images ∧
      scaleway_provider_after.network = scaleway_provider.network ∧
      scaleway_provider_after.subnets = scaleway_provider.subnets) :=
  C10_success_appends_one_and_frames hetzner_provider hetzner_provider_after
    scaleway_provider scaleway_provider_after xardas xardas
    [.hcloudServer "xardas"]
    [.scalewayInstanceIp "public_ip_xardas", .scalewayInstanceServer "xardas"]
    rfl rfl
